import Mathlib

/-!
# Verification of the colorir color-conversion and formatting engine

This file gives a shallow embedding of the core of the `colorir` python
library (files `colorir/color_class.py`, `colorir/color_format.py`,
`colorir/utils.py`) and proves properties of it.

Python floats are modelled as rationals.  Conversion routines provided by
the vendored `colormath` package (which is not part of the sources being
verified) are abstracted into a `ColormathOracle` parameter; the CMY and
CMYK conversions, whose formulas the specification states exactly, are
modelled from the specification.
-/

set_option allowUnsafeReducibility true

attribute [semireducible] Rat.add Rat.sub Rat.mul Rat.inv Rat.ofScientific

namespace Colorir

/-- Round half to even, as `numpy.rint` and python `round` do. -/
def rint (q : ℚ) : ℤ :=
  let f := ⌊q⌋
  let r := q - f
  if r < 1/2 then f
  else if 1/2 < r then f + 1
  else if f % 2 = 0 then f else f + 1

/-- Python `round(x, n)` for `n ≥ 1`: round half to even at `n` decimal places. -/
def pyroundN (q : ℚ) (n : ℕ) : ℚ := (rint (q * 10 ^ n) : ℚ) / 10 ^ n

/-- Python float modulo: `a % b = a - b*⌊a/b⌋` (result has the divisor's sign). -/
def pymod (a b : ℚ) : ℚ := a - b * ⌊a / b⌋

/-- Python `int(q)`: truncation toward zero. -/
def pytrunc (q : ℚ) : ℤ := if 0 ≤ q then ⌊q⌋ else ⌈q⌉

/-- A quadruple of canonical RGBA channels before integer rounding
(`rgba` arrays of python floats on the 0–255 scale). -/
structure Rgba where
  r : ℚ
  g : ℚ
  b : ℚ
  a : ℚ
  deriving DecidableEq, Repr

/-- The integer canonical channels as stored in `ColorBase._rgba`
(the source stores `np.rint(rgba).astype(int)`). -/
structure RgbaI where
  r : ℤ
  g : ℤ
  b : ℤ
  a : ℤ
  deriving DecidableEq, Repr

/-- Channel-wise `np.rint`. -/
def rintRgba (x : Rgba) : RgbaI := ⟨rint x.r, rint x.g, rint x.b, rint x.a⟩

/-- Cast integer channels back to rationals. -/
def castRgba (x : RgbaI) : Rgba := ⟨x.r, x.g, x.b, x.a⟩

theorem rint_intCast (n : ℤ) : rint (n : ℚ) = n := by
  unfold rint
  simp [Int.floor_intCast]

theorem rintRgba_castRgba (x : RgbaI) : rintRgba (castRgba x) = x := by
  cases x
  simp [rintRgba, castRgba, rint_intCast]

theorem rint_nonneg {q : ℚ} (h : 0 ≤ q) : 0 ≤ rint q := by
  unfold rint
  have hf : (0:ℤ) ≤ ⌊q⌋ := Int.floor_nonneg.mpr h
  dsimp only
  split
  · exact hf
  · split
    · omega
    · split <;> omega

theorem rint_le_of_le {q : ℚ} {m : ℤ} (h : q ≤ m) : rint q ≤ m := by
  unfold rint
  have hf : ⌊q⌋ ≤ m := by
    have := Int.floor_mono h
    simpa using this
  dsimp only
  split
  · exact hf
  all_goals {
    rename_i h1
    push_neg at h1
    by_cases he : ⌊q⌋ = m
    · exfalso
      have hq : q - ⌊q⌋ ≤ 0 := by
        rw [he]
        exact sub_nonpos.mpr h
      linarith
    · have : ⌊q⌋ + 1 ≤ m := by omega
      split <;> omega }

/-! ## Embedding of the python stdlib `colorsys` routines used by the source -/

/-- `colorsys._v`, the helper of `hls_to_rgb`. -/
def colorsysV (m1 m2 hue : ℚ) : ℚ :=
  let hue := pymod hue 1
  if hue < 1/6 then m1 + (m2 - m1) * hue * 6
  else if hue < 1/2 then m2
  else if hue < 2/3 then m1 + (m2 - m1) * (2/3 - hue) * 6
  else m1

/-- `colorsys.hls_to_rgb`. -/
def hlsToRgb (h l s : ℚ) : ℚ × ℚ × ℚ :=
  if s = 0 then (l, l, l)
  else
    let m2 := if l ≤ 1/2 then l * (1 + s) else l + s - l * s
    let m1 := 2 * l - m2
    (colorsysV m1 m2 (h + 1/3), colorsysV m1 m2 h, colorsysV m1 m2 (h - 1/3))

/-- `colorsys.rgb_to_hls`. -/
def rgbToHls (r g b : ℚ) : ℚ × ℚ × ℚ :=
  let maxc := max r (max g b)
  let minc := min r (min g b)
  let sumc := maxc + minc
  let rangec := maxc - minc
  let l := sumc / 2
  if minc = maxc then (0, l, 0)
  else
    let s := if l ≤ 1/2 then rangec / sumc else rangec / (2 - maxc - minc)
    let rc := (maxc - r) / rangec
    let gc := (maxc - g) / rangec
    let bc := (maxc - b) / rangec
    let h := if r = maxc then bc - gc else if g = maxc then 2 + rc - bc else 4 + gc - rc
    (pymod (h / 6) 1, l, s)

/-- `colorsys.hsv_to_rgb`. -/
def hsvToRgb (h s v : ℚ) : ℚ × ℚ × ℚ :=
  if s = 0 then (v, v, v)
  else
    let i0 := pytrunc (h * 6)
    let f := h * 6 - i0
    let p := v * (1 - s)
    let q := v * (1 - s * f)
    let t := v * (1 - s * (1 - f))
    let i := i0 % 6
    if i = 0 then (v, t, p)
    else if i = 1 then (q, v, p)
    else if i = 2 then (p, v, t)
    else if i = 3 then (p, q, v)
    else if i = 4 then (t, p, v)
    else (v, p, q)

/-- `colorsys.rgb_to_hsv`. -/
def rgbToHsv (r g b : ℚ) : ℚ × ℚ × ℚ :=
  let maxc := max r (max g b)
  let minc := min r (min g b)
  let rangec := maxc - minc
  let v := maxc
  if minc = maxc then (0, 0, v)
  else
    let s := rangec / maxc
    let rc := (maxc - r) / rangec
    let gc := (maxc - g) / rangec
    let bc := (maxc - b) / rangec
    let h := if r = maxc then bc - gc else if g = maxc then 2 + rc - bc else 4 + gc - rc
    (pymod (h / 6) 1, s, v)

/-! ## `ColorTupleBase` -/

/-- The data held by every tuple-based color value: the native-component tuple
content (`specs`, including the appended alpha when `include_a` is set), the
alpha component `a`, the stored canonical channels `_rgba`, and the two common
format parameters. -/
structure TupleCore where
  specs : List ℚ
  a : ℚ
  rgba : RgbaI
  include_a : Bool
  round_to : ℤ
  deriving DecidableEq, Repr

/-- The per-component rounding applied by `ColorTupleBase.__new__` as a
function of `round_to`. -/
def roundSpec (round_to : ℤ) (v : ℚ) : ℚ :=
  if round_to = 0 then (rint v : ℚ)
  else if 0 < round_to then pyroundN v round_to.toNat
  else v

/-- `ColorTupleBase.__new__`: rounds the native components and alpha according
to `round_to`, appends alpha when `include_a` is set, and stores
`np.rint(rgba).astype(int)` as the canonical channels. -/
def tupleNew (specs : List ℚ) (a : ℚ) (rgba : Rgba) (include_a : Bool)
    (round_to : ℤ) : TupleCore :=
  let specs := specs.map (roundSpec round_to)
  let a := roundSpec round_to a
  { specs := if include_a then specs ++ [a] else specs
    a := a
    rgba := rintRgba rgba
    include_a := include_a
    round_to := round_to }

/-- Python exceptions raised by the constructors. -/
inductive PyErr where
  | valueError (msg : String)
  | typeError
  deriving DecidableEq, Repr

/-! ## Format parameters of each color system -/

structure RGBParams where
  max_rgb : ℚ := 1
  max_a : ℚ := 1
  include_a : Bool := false
  round_to : ℤ := -1
  linear : Bool := false
  deriving DecidableEq, Repr

structure HSLParams where
  max_h : ℚ := 360
  max_sla : ℚ := 1
  include_a : Bool := false
  round_to : ℤ := -1
  deriving DecidableEq, Repr

structure HSVParams where
  max_h : ℚ := 360
  max_sva : ℚ := 1
  include_a : Bool := false
  round_to : ℤ := -1
  deriving DecidableEq, Repr

structure CMYKParams where
  max_cmyka : ℚ := 1
  include_a : Bool := false
  round_to : ℤ := -1
  deriving DecidableEq, Repr

structure CMYParams where
  max_cmya : ℚ := 1
  include_a : Bool := false
  round_to : ℤ := -1
  deriving DecidableEq, Repr

/-- Parameters shared by `CIELuv` and `CIELab`. -/
structure CIEParams where
  max_a : ℚ := 1
  include_a : Bool := false
  round_to : ℤ := -1
  deriving DecidableEq, Repr

/-- Parameters shared by `HCLuv` and `HCLab`. -/
structure HCLParams where
  max_h : ℚ := 360
  max_a : ℚ := 1
  include_a : Bool := false
  round_to : ℤ := -1
  deriving DecidableEq, Repr

/-- Parameters of `Hex`; `tail_a = none` models the `default_tail` sentinel,
which both `Hex.__new__` and `Hex._from_rgba` resolve to `False` (the
accompanying `FutureWarning` has no effect on the produced value). -/
structure HexParams where
  uppercase : Bool := false
  include_hash : Bool := true
  include_a : Bool := false
  tail_a : Option Bool := none
  deriving DecidableEq, Repr

/-! ## The colormath oracle -/

/-- Modelled from the spec: the vendored `colormath` conversion routines
(`convert_color` through `XYZ` with the D65 illuminant, §4.1 of the spec) are
not part of the verified sources, and the spec fixes no closed formula for
them; they are abstracted as arbitrary rational functions.  The two gamma
power functions `x ** 2.4` and `x ** (1/2.4)` of `utils._to_linear_rgb` and
`utils._to_srgb` are irrational powers and are likewise taken as parameters;
every theorem below holds for every choice of oracle. -/
structure ColormathOracle where
  rgbOfLuv : ℚ → ℚ → ℚ → ℚ × ℚ × ℚ
  rgbOfLab : ℚ → ℚ → ℚ → ℚ × ℚ × ℚ
  rgbOfLchuv : ℚ → ℚ → ℚ → ℚ × ℚ × ℚ
  rgbOfLchab : ℚ → ℚ → ℚ → ℚ × ℚ × ℚ
  luvOfRgb : ℚ → ℚ → ℚ → ℚ × ℚ × ℚ
  labOfRgb : ℚ → ℚ → ℚ → ℚ × ℚ × ℚ
  lchuvOfRgb : ℚ → ℚ → ℚ → ℚ × ℚ × ℚ
  lchabOfRgb : ℚ → ℚ → ℚ → ℚ × ℚ × ℚ
  powGamma : ℚ → ℚ
  powInvGamma : ℚ → ℚ

/-- A concrete oracle (all conversions zero, powers the identity), used to
instantiate theorems at concrete inputs. -/
def O0 : ColormathOracle :=
  { rgbOfLuv := fun _ _ _ => (0, 0, 0)
    rgbOfLab := fun _ _ _ => (0, 0, 0)
    rgbOfLchuv := fun _ _ _ => (0, 0, 0)
    rgbOfLchab := fun _ _ _ => (0, 0, 0)
    luvOfRgb := fun _ _ _ => (0, 0, 0)
    labOfRgb := fun _ _ _ => (0, 0, 0)
    lchuvOfRgb := fun _ _ _ => (0, 0, 0)
    lchabOfRgb := fun _ _ _ => (0, 0, 0)
    powGamma := id
    powInvGamma := id }

/-- `utils._to_linear_rgb` on one channel (input on the 0–1 scale). -/
def toLinearChan (O : ColormathOracle) (c : ℚ) : ℚ :=
  if c ≤ 4045/100000 then c / (1292/100)
  else O.powGamma ((c + 55/1000) / (1055/1000))

/-- `utils._to_srgb` on one channel (input on the 0–1 scale). -/
def toSrgbChan (O : ColormathOracle) (c : ℚ) : ℚ :=
  if c ≤ 31308/10000000 then c * (1292/100)
  else 1055/1000 * O.powInvGamma c - 55/1000

/-- `utils._to_srgb`: applied to the three color channels, alpha unchanged. -/
def toSrgb (O : ColormathOracle) (x : Rgba) : Rgba :=
  ⟨toSrgbChan O x.r, toSrgbChan O x.g, toSrgbChan O x.b, x.a⟩

/-- `utils._to_linear_rgb`: applied to the three color channels, alpha
unchanged. -/
def toLinearRgb (O : ColormathOracle) (x : Rgba) : Rgba :=
  ⟨toLinearChan O x.r, toLinearChan O x.g, toLinearChan O x.b, x.a⟩

/-! ## Color-system constructors and canonical factories -/

/-- `RGB.__new__`. -/
def RGB_new (O : ColormathOracle) (r g b : ℚ) (aArg : Option ℚ)
    (p : RGBParams) : Except PyErr TupleCore :=
  let a := aArg.getD p.max_a
  if aArg.isSome ∧ ¬(0 ≤ a ∧ a ≤ p.max_a) then
    .error (.valueError "a must be greater than 0 and smaller than max_a")
  else if ¬(0 ≤ r ∧ r ≤ p.max_rgb ∧ 0 ≤ g ∧ g ≤ p.max_rgb ∧
      0 ≤ b ∧ b ≤ p.max_rgb) then
    .error (.valueError "r g and b must be greater than 0 and smaller than max_rgb")
  else
    let rgba0 : Rgba := ⟨r / p.max_rgb, g / p.max_rgb, b / p.max_rgb, a / p.max_a⟩
    let rgba1 := if p.linear then toSrgb O rgba0 else rgba0
    let rgba : Rgba := ⟨rgba1.r * 255, rgba1.g * 255, rgba1.b * 255, rgba1.a * 255⟩
    .ok (tupleNew [r, g, b] a rgba p.include_a p.round_to)

/-- `RGB._from_rgba`. -/
def RGB_from_rgba (O : ColormathOracle) (x : RgbaI) (p : RGBParams) : TupleCore :=
  let q := castRgba x
  let rgb01 : Rgba := ⟨q.r / 255, q.g / 255, q.b / 255, q.a / 255⟩
  let rgb := if p.linear then toLinearRgb O rgb01 else rgb01
  tupleNew [rgb.r * p.max_rgb, rgb.g * p.max_rgb, rgb.b * p.max_rgb]
    (q.a / 255 * p.max_a) q p.include_a p.round_to

/-- `HSL.__new__`. -/
def HSL_new (h s l : ℚ) (aArg : Option ℚ) (p : HSLParams) :
    Except PyErr TupleCore :=
  let a := aArg.getD p.max_sla
  if ¬(0 ≤ s ∧ s ≤ p.max_sla ∧ 0 ≤ l ∧ l ≤ p.max_sla ∧ 0 ≤ a ∧ a ≤ p.max_sla) then
    .error (.valueError "s l and a must be greater than 0 and smaller than max_sla")
  else
    let rgb := hlsToRgb (pymod h p.max_h / p.max_h) (l / p.max_sla) (s / p.max_sla)
    let rgba : Rgba := ⟨rgb.1 * 255, rgb.2.1 * 255, rgb.2.2 * 255, a / p.max_sla * 255⟩
    .ok (tupleNew [h, s, l] a rgba p.include_a p.round_to)

/-- `HSL._from_rgba`. -/
def HSL_from_rgba (x : RgbaI) (p : HSLParams) : TupleCore :=
  let hls := rgbToHls ((x.r : ℚ) / 255) ((x.g : ℚ) / 255) ((x.b : ℚ) / 255)
  tupleNew [hls.1 * p.max_h, hls.2.2 * p.max_sla, hls.2.1 * p.max_sla]
    ((x.a : ℚ) / 255 * p.max_sla) (castRgba x) p.include_a p.round_to

/-- `HSV.__new__`. -/
def HSV_new (h s v : ℚ) (aArg : Option ℚ) (p : HSVParams) :
    Except PyErr TupleCore :=
  let a := aArg.getD p.max_sva
  if ¬(0 ≤ s ∧ s ≤ p.max_sva ∧ 0 ≤ v ∧ v ≤ p.max_sva ∧ 0 ≤ a ∧ a ≤ p.max_sva) then
    .error (.valueError "s v and a must be greater than 0 and smaller than max_sva")
  else
    let rgb := hsvToRgb (pymod h p.max_h / p.max_h) (s / p.max_sva) (v / p.max_sva)
    let rgba : Rgba := ⟨rgb.1 * 255, rgb.2.1 * 255, rgb.2.2 * 255, a / p.max_sva * 255⟩
    .ok (tupleNew [h, s, v] a rgba p.include_a p.round_to)

/-- `HSV._from_rgba`. -/
def HSV_from_rgba (x : RgbaI) (p : HSVParams) : TupleCore :=
  let hsv := rgbToHsv ((x.r : ℚ) / 255) ((x.g : ℚ) / 255) ((x.b : ℚ) / 255)
  tupleNew [hsv.1 * p.max_h, hsv.2.1 * p.max_sva, hsv.2.2 * p.max_sva]
    ((x.a : ℚ) / 255 * p.max_sva) (castRgba x) p.include_a p.round_to

/-- Modelled from the spec: `convert_color(CMYColor, sRGBColor)` of the
missing colormath package; §4.1 fixes `R = 1 - C` (and cyclically) on the
0–1 scale. -/
def cmyToRgb (c m y : ℚ) : ℚ × ℚ × ℚ := (1 - c, 1 - m, 1 - y)

/-- Modelled from the spec: `convert_color(sRGBColor, CMYColor)` of the
missing colormath package; §4.1 fixes `C = 1 - R` (and cyclically) on the
0–1 scale. -/
def rgbToCmy (r g b : ℚ) : ℚ × ℚ × ℚ := (1 - r, 1 - g, 1 - b)

/-- Modelled from the spec: `convert_color(CMYKColor, sRGBColor)` of the
missing colormath package; §4.1 fixes `R = (1-C)(1-K)` (and cyclically) on
the 0–1 scale. -/
def cmykToRgb (c m y k : ℚ) : ℚ × ℚ × ℚ :=
  ((1 - c) * (1 - k), (1 - m) * (1 - k), (1 - y) * (1 - k))

/-- Modelled from the spec: `convert_color(sRGBColor, CMYKColor)` of the
missing colormath package; §4.1 fixes `K = min(C,M,Y)` with `C,M,Y` rescaled
by `(c-k)/(1-k)` and the degenerate all-zero-RGB case mapped to
`C = M = Y = 0, K = 1` on the 0–1 scale. -/
def rgbToCmyk (r g b : ℚ) : ℚ × ℚ × ℚ × ℚ :=
  let c := 1 - r
  let m := 1 - g
  let y := 1 - b
  let k := min c (min m y)
  if k = 1 then (0, 0, 0, 1)
  else ((c - k) / (1 - k), (m - k) / (1 - k), (y - k) / (1 - k), k)

/-- `CMY.__new__`. -/
def CMY_new (c m y : ℚ) (aArg : Option ℚ) (p : CMYParams) :
    Except PyErr TupleCore :=
  let a := aArg.getD p.max_cmya
  if ¬(0 ≤ c ∧ c ≤ p.max_cmya ∧ 0 ≤ m ∧ m ≤ p.max_cmya ∧
      0 ≤ y ∧ y ≤ p.max_cmya ∧ 0 ≤ a ∧ a ≤ p.max_cmya) then
    .error (.valueError "c m y and a must be greater than 0 and smaller than max_cmya")
  else
    let rgb := cmyToRgb (c / p.max_cmya) (m / p.max_cmya) (y / p.max_cmya)
    let rgba : Rgba := ⟨rgb.1 * 255, rgb.2.1 * 255, rgb.2.2 * 255, a / p.max_cmya * 255⟩
    .ok (tupleNew [c, m, y] a rgba p.include_a p.round_to)

/-- `CMY._from_rgba`. -/
def CMY_from_rgba (x : RgbaI) (p : CMYParams) : TupleCore :=
  let cmy := rgbToCmy ((x.r : ℚ) / 255) ((x.g : ℚ) / 255) ((x.b : ℚ) / 255)
  tupleNew [cmy.1 * p.max_cmya, cmy.2.1 * p.max_cmya, cmy.2.2 * p.max_cmya]
    ((x.a : ℚ) / 255 * p.max_cmya) (castRgba x) p.include_a p.round_to

/-- `CMYK.__new__`. -/
def CMYK_new (c m y k : ℚ) (aArg : Option ℚ) (p : CMYKParams) :
    Except PyErr TupleCore :=
  let a := aArg.getD p.max_cmyka
  if ¬(0 ≤ c ∧ c ≤ p.max_cmyka ∧ 0 ≤ m ∧ m ≤ p.max_cmyka ∧
      0 ≤ y ∧ y ≤ p.max_cmyka ∧ 0 ≤ k ∧ k ≤ p.max_cmyka ∧
      0 ≤ a ∧ a ≤ p.max_cmyka) then
    .error (.valueError "c m y k and a must be greater than 0 and smaller than max_cmyka")
  else
    let rgb := cmykToRgb (c / p.max_cmyka) (m / p.max_cmyka) (y / p.max_cmyka)
      (k / p.max_cmyka)
    let rgba : Rgba := ⟨rgb.1 * 255, rgb.2.1 * 255, rgb.2.2 * 255, a / p.max_cmyka * 255⟩
    .ok (tupleNew [c, m, y, k] a rgba p.include_a p.round_to)

/-- `CMYK._from_rgba`. -/
def CMYK_from_rgba (x : RgbaI) (p : CMYKParams) : TupleCore :=
  let cmyk := rgbToCmyk ((x.r : ℚ) / 255) ((x.g : ℚ) / 255) ((x.b : ℚ) / 255)
  tupleNew [cmyk.1 * p.max_cmyka, cmyk.2.1 * p.max_cmyka,
      cmyk.2.2.1 * p.max_cmyka, cmyk.2.2.2 * p.max_cmyka]
    ((x.a : ℚ) / 255 * p.max_cmyka) (castRgba x) p.include_a p.round_to

/-- Clamping of one colormath `clamped_rgb_*` property to the 0–1 range. -/
def clamp01 (q : ℚ) : ℚ := max 0 (min 1 q)

/-- `CIELuv.__new__`: validates `a` and `l`, converts through the colormath
oracle, and clamps the resulting RGB channels to 0–1 before scaling. -/
def CIELuv_new (O : ColormathOracle) (l u v : ℚ) (aArg : Option ℚ)
    (p : CIEParams) : Except PyErr TupleCore :=
  let a := aArg.getD p.max_a
  if aArg.isSome ∧ ¬(0 ≤ a ∧ a ≤ p.max_a) then
    .error (.valueError "a must be greater than 0 and smaller than max_a")
  else if ¬(0 ≤ l ∧ l ≤ 100) then
    .error (.valueError "l must be greater than 0 and smaller than 100")
  else
    let rgb := O.rgbOfLuv l u v
    let rgba : Rgba := ⟨clamp01 rgb.1 * 255, clamp01 rgb.2.1 * 255,
      clamp01 rgb.2.2 * 255, a / p.max_a * 255⟩
    .ok (tupleNew [l, u, v] a rgba p.include_a p.round_to)

/-- `CIELuv._from_rgba`. -/
def CIELuv_from_rgba (O : ColormathOracle) (x : RgbaI) (p : CIEParams) : TupleCore :=
  let luv := O.luvOfRgb x.r x.g x.b
  tupleNew [luv.1, luv.2.1, luv.2.2] ((x.a : ℚ) / 255 * p.max_a) (castRgba x)
    p.include_a p.round_to

/-- `CIELab.__new__`: validates `a` and `l`, converts through the colormath
oracle, and clamps the resulting RGB channels to 0–1 before scaling. -/
def CIELab_new (O : ColormathOracle) (l aStar b : ℚ) (aArg : Option ℚ)
    (p : CIEParams) : Except PyErr TupleCore :=
  let a := aArg.getD p.max_a
  if aArg.isSome ∧ ¬(0 ≤ a ∧ a ≤ p.max_a) then
    .error (.valueError "a must be greater than 0 and smaller than max_a")
  else if ¬(0 ≤ l ∧ l ≤ 100) then
    .error (.valueError "l must be greater than 0 and smaller than 100")
  else
    let rgb := O.rgbOfLab l aStar b
    let rgba : Rgba := ⟨clamp01 rgb.1 * 255, clamp01 rgb.2.1 * 255,
      clamp01 rgb.2.2 * 255, a / p.max_a * 255⟩
    .ok (tupleNew [l, aStar, b] a rgba p.include_a p.round_to)

/-- `CIELab._from_rgba`. -/
def CIELab_from_rgba (O : ColormathOracle) (x : RgbaI) (p : CIEParams) : TupleCore :=
  let lab := O.labOfRgb x.r x.g x.b
  tupleNew [lab.1, lab.2.1, lab.2.2] ((x.a : ℚ) / 255 * p.max_a) (castRgba x)
    p.include_a p.round_to

/-- `HCLuv.__new__`. -/
def HCLuv_new (O : ColormathOracle) (h c l : ℚ) (aArg : Option ℚ)
    (p : HCLParams) : Except PyErr TupleCore :=
  let a := aArg.getD p.max_a
  if aArg.isSome ∧ ¬(0 ≤ a ∧ a ≤ p.max_a) then
    .error (.valueError "a must be greater than 0 and smaller than max_a")
  else if ¬(0 ≤ l ∧ l ≤ 100) then
    .error (.valueError "l must be greater than 0 and smaller than 100")
  else
    let rgb := O.rgbOfLchuv l c (pymod (h / p.max_h * 360) 360)
    let rgba : Rgba := ⟨clamp01 rgb.1 * 255, clamp01 rgb.2.1 * 255,
      clamp01 rgb.2.2 * 255, a / p.max_a * 255⟩
    .ok (tupleNew [h, c, l] a rgba p.include_a p.round_to)

/-- `HCLuv._from_rgba`. -/
def HCLuv_from_rgba (O : ColormathOracle) (x : RgbaI) (p : HCLParams) : TupleCore :=
  let lch := O.lchuvOfRgb x.r x.g x.b
  tupleNew [lch.2.2 * (p.max_h / 360), lch.2.1, lch.1]
    ((x.a : ℚ) / 255 * p.max_a) (castRgba x) p.include_a p.round_to

/-- `HCLab.__new__`. -/
def HCLab_new (O : ColormathOracle) (h c l : ℚ) (aArg : Option ℚ)
    (p : HCLParams) : Except PyErr TupleCore :=
  let a := aArg.getD p.max_a
  if aArg.isSome ∧ ¬(0 ≤ a ∧ a ≤ p.max_a) then
    .error (.valueError "a must be greater than 0 and smaller than max_a")
  else if ¬(0 ≤ l ∧ l ≤ 100) then
    .error (.valueError "l must be greater than 0 and smaller than 100")
  else
    let rgb := O.rgbOfLchab l c (pymod (h / p.max_h * 360) 360)
    let rgba : Rgba := ⟨clamp01 rgb.1 * 255, clamp01 rgb.2.1 * 255,
      clamp01 rgb.2.2 * 255, a / p.max_a * 255⟩
    .ok (tupleNew [h, c, l] a rgba p.include_a p.round_to)

/-- `HCLab._from_rgba`. -/
def HCLab_from_rgba (O : ColormathOracle) (x : RgbaI) (p : HCLParams) : TupleCore :=
  let lch := O.lchabOfRgb x.r x.g x.b
  tupleNew [lch.2.2 * (p.max_h / 360), lch.2.1, lch.1]
    ((x.a : ℚ) / 255 * p.max_a) (castRgba x) p.include_a p.round_to

/-! ## The `Hex` color system -/

/-- Value of one hexadecimal digit (`int(c, 16)` on a single character). -/
def hexDigitVal (c : Char) : Option ℕ :=
  if '0' ≤ c ∧ c ≤ '9' then some (c.toNat - '0'.toNat)
  else if 'a' ≤ c ∧ c ≤ 'f' then some (c.toNat - 'a'.toNat + 10)
  else if 'A' ≤ c ∧ c ≤ 'F' then some (c.toNat - 'A'.toNat + 10)
  else none

/-- `int(hex_str[i:i+2], 16)` on a two-character digit slice. -/
def hexPairVal (c₁ c₂ : Char) : Option ℕ :=
  match hexDigitVal c₁, hexDigitVal c₂ with
  | some d1, some d2 => some (16 * d1 + d2)
  | _, _ => none

/-- One lowercase hexadecimal digit character. -/
def hexChar (n : ℕ) : Char :=
  if n < 10 then Char.ofNat ('0'.toNat + n) else Char.ofNat ('a'.toNat + (n - 10))

/-- Python `'%02x' % n` for the byte-range values the library produces. -/
def toHexPair (n : ℤ) : String :=
  String.mk [hexChar ((n.toNat / 16) % 16), hexChar (n.toNat % 16)]

/-- The data held by a `Hex` color value: the stored string, the canonical
channels, and the format parameters (with the `default_tail` sentinel already
resolved to a boolean, as `Hex._from_rgba` does before storing it). -/
structure HexVal where
  s : String
  rgba : RgbaI
  uppercase : Bool
  include_hash : Bool
  include_a : Bool
  tail_a : Bool
  deriving DecidableEq, Repr

/-- `Hex._from_rgba`: renders the channels as a hex string (alpha pair at the
head or tail according to `tail_a` when `include_a` is set) and stores the
channels; `np.rint(rgba).astype(int)` is the identity on the integer channel
vectors every caller passes. -/
def Hex_from_rgba (x : RgbaI) (p : HexParams) : HexVal :=
  let tail := p.tail_a.getD false
  let hex6 := toHexPair x.r ++ toHexPair x.g ++ toHexPair x.b
  let hs := if p.include_a then
      (if tail then hex6 ++ toHexPair x.a else toHexPair x.a ++ hex6)
    else hex6
  let hs := if p.uppercase then hs.toUpper else hs
  let hs := if p.include_hash then "#" ++ hs else hs
  ⟨hs, x, p.uppercase, p.include_hash, p.include_a, tail⟩

/-- `Hex.__new__`: strips leading hash characters, accepts 3, 6 or 8 digits
(3-digit shorthand doubles each character), locates the alpha byte pair per
`tail_a`, and delegates the final construction to `Hex._from_rgba`. -/
def Hex_new (s : String) (p : HexParams) : Except PyErr HexVal :=
  let tail := p.tail_a.getD false
  let cs := s.toList.dropWhile (· = '#')
  if cs.length ≠ 3 ∧ cs.length ≠ 6 ∧ cs.length ≠ 8 then
    .error (.valueError "hex_str length must be 3 6 or 8")
  else
    let cs := if cs.length = 3 then cs.flatMap (fun c => [c, c]) else cs
    match cs with
    | [c1, c2, c3, c4, c5, c6] =>
      match hexPairVal c1 c2, hexPairVal c3 c4, hexPairVal c5 c6 with
      | some r, some g, some b =>
        .ok (Hex_from_rgba ⟨r, g, b, 255⟩ { p with tail_a := some tail })
      | _, _, _ => .error (.valueError "invalid literal for int with base 16")
    | [c1, c2, c3, c4, c5, c6, c7, c8] =>
      let pairs :=
        if tail then
          (hexPairVal c1 c2, hexPairVal c3 c4, hexPairVal c5 c6, hexPairVal c7 c8)
        else
          (hexPairVal c3 c4, hexPairVal c5 c6, hexPairVal c7 c8, hexPairVal c1 c2)
      match pairs with
      | (some r, some g, some b, some a) =>
        .ok (Hex_from_rgba ⟨r, g, b, a⟩ { p with tail_a := some tail })
      | _ => .error (.valueError "invalid literal for int with base 16")
    | _ => .error (.valueError "unreachable length")

/-! ## Color values and color formats -/

/-- A constructed color value: either tuple-based or a hex string. -/
inductive ColorValue where
  | tupv (core : TupleCore)
  | hexv (h : HexVal)
  deriving DecidableEq, Repr

/-- The stored canonical channels `_rgba` of a value. -/
def ColorValue.rgba : ColorValue → RgbaI
  | .tupv c => c.rgba
  | .hexv h => h.rgba

/-- A python value passed as a keyword argument. -/
inductive PVal where
  | num (q : ℚ)
  | int (n : ℤ)
  | bool (b : Bool)
  | noneV
  deriving DecidableEq, Repr

/-- A keyword-argument dictionary. -/
def Kw := String → Option PVal

/-- The empty dictionary. -/
def emptyKw : Kw := fun _ => none

/-- Python `base.update(upd)`: entries of `upd` overwrite those of `base`. -/
def dictUpdate (base upd : Kw) : Kw :=
  fun k => (upd k).orElse (fun _ => base k)

def getQ (d : Kw) (k : String) (dflt : ℚ) : ℚ :=
  match d k with
  | some (.num q) => q
  | some (.int n) => (n : ℚ)
  | _ => dflt

def getZ (d : Kw) (k : String) (dflt : ℤ) : ℤ :=
  match d k with
  | some (.int n) => n
  | _ => dflt

def getB (d : Kw) (k : String) (dflt : Bool) : Bool :=
  match d k with
  | some (.bool b) => b
  | _ => dflt

def getOB (d : Kw) (k : String) : Option Bool :=
  match d k with
  | some (.bool b) => some b
  | _ => none

def getOQ (d : Kw) (k : String) : Option ℚ :=
  match d k with
  | some (.num q) => some q
  | some (.int n) => some (n : ℚ)
  | _ => none

def resolveRGB (d : Kw) : RGBParams :=
  ⟨getQ d "max_rgb" 1, getQ d "max_a" 1, getB d "include_a" false,
    getZ d "round_to" (-1), getB d "linear" false⟩

def resolveHSL (d : Kw) : HSLParams :=
  ⟨getQ d "max_h" 360, getQ d "max_sla" 1, getB d "include_a" false,
    getZ d "round_to" (-1)⟩

def resolveHSV (d : Kw) : HSVParams :=
  ⟨getQ d "max_h" 360, getQ d "max_sva" 1, getB d "include_a" false,
    getZ d "round_to" (-1)⟩

def resolveCMY (d : Kw) : CMYParams :=
  ⟨getQ d "max_cmya" 1, getB d "include_a" false, getZ d "round_to" (-1)⟩

def resolveCMYK (d : Kw) : CMYKParams :=
  ⟨getQ d "max_cmyka" 1, getB d "include_a" false, getZ d "round_to" (-1)⟩

def resolveCIE (d : Kw) : CIEParams :=
  ⟨getQ d "max_a" 1, getB d "include_a" false, getZ d "round_to" (-1)⟩

def resolveHCL (d : Kw) : HCLParams :=
  ⟨getQ d "max_h" 360, getQ d "max_a" 1, getB d "include_a" false,
    getZ d "round_to" (-1)⟩

def resolveHex (d : Kw) : HexParams :=
  ⟨getB d "uppercase" false, getB d "include_hash" true,
    getB d "include_a" false, getOB d "tail_a"⟩

/-- The catalog of color systems a `ColorFormat` can be bound to. -/
inductive SysTag where
  | rgb | hsl | hsv | cmy | cmyk | cieluv | cieLab | hcluv | hclab | hex
  deriving DecidableEq, Repr

/-- `color_format.ColorFormat`: a color system together with the keyword
arguments fixed at format construction (absent keys fall back to the
constructors' defaults at call time, as in the source). -/
structure ColorFormat where
  sys : SysTag
  params : Kw

/-- `ColorFormat._from_rgba`: dispatches to the bound system's canonical
factory with the format's fixed parameters. -/
def ColorFormat.fromRgba (O : ColormathOracle) (f : ColorFormat) (x : RgbaI) :
    ColorValue :=
  match f.sys with
  | .rgb => .tupv (RGB_from_rgba O x (resolveRGB f.params))
  | .hsl => .tupv (HSL_from_rgba x (resolveHSL f.params))
  | .hsv => .tupv (HSV_from_rgba x (resolveHSV f.params))
  | .cmy => .tupv (CMY_from_rgba x (resolveCMY f.params))
  | .cmyk => .tupv (CMYK_from_rgba x (resolveCMYK f.params))
  | .cieluv => .tupv (CIELuv_from_rgba O x (resolveCIE f.params))
  | .cieLab => .tupv (CIELab_from_rgba O x (resolveCIE f.params))
  | .hcluv => .tupv (HCLuv_from_rgba O x (resolveHCL f.params))
  | .hclab => .tupv (HCLab_from_rgba O x (resolveHCL f.params))
  | .hex => .hexv (Hex_from_rgba x (resolveHex f.params))

/-- Calling a tuple-based system's constructor with spread positional
numeric arguments and a keyword dictionary, as `new_color` does; argument
lists that do not fit the constructor signature raise `TypeError`, as does a
positional alpha clashing with an `a` keyword entry. -/
def callSys (O : ColormathOracle) (sys : SysTag) (args : List ℚ) (d : Kw) :
    Except PyErr ColorValue :=
  match sys with
  | .rgb =>
    match args with
    | [r, g, b] => (RGB_new O r g b (getOQ d "a") (resolveRGB d)).map .tupv
    | [r, g, b, a] =>
      if (d "a").isSome then .error .typeError
      else (RGB_new O r g b (some a) (resolveRGB d)).map .tupv
    | _ => .error .typeError
  | .hsl =>
    match args with
    | [h, s, l] => (HSL_new h s l (getOQ d "a") (resolveHSL d)).map .tupv
    | [h, s, l, a] =>
      if (d "a").isSome then .error .typeError
      else (HSL_new h s l (some a) (resolveHSL d)).map .tupv
    | _ => .error .typeError
  | .hsv =>
    match args with
    | [h, s, v] => (HSV_new h s v (getOQ d "a") (resolveHSV d)).map .tupv
    | [h, s, v, a] =>
      if (d "a").isSome then .error .typeError
      else (HSV_new h s v (some a) (resolveHSV d)).map .tupv
    | _ => .error .typeError
  | .cmy =>
    match args with
    | [c, m, y] => (CMY_new c m y (getOQ d "a") (resolveCMY d)).map .tupv
    | [c, m, y, a] =>
      if (d "a").isSome then .error .typeError
      else (CMY_new c m y (some a) (resolveCMY d)).map .tupv
    | _ => .error .typeError
  | .cmyk =>
    match args with
    | [c, m, y, k] => (CMYK_new c m y k (getOQ d "a") (resolveCMYK d)).map .tupv
    | [c, m, y, k, a] =>
      if (d "a").isSome then .error .typeError
      else (CMYK_new c m y k (some a) (resolveCMYK d)).map .tupv
    | _ => .error .typeError
  | .cieluv =>
    match args with
    | [l, u, v] => (CIELuv_new O l u v (getOQ d "a") (resolveCIE d)).map .tupv
    | [l, u, v, a] =>
      if (d "a").isSome then .error .typeError
      else (CIELuv_new O l u v (some a) (resolveCIE d)).map .tupv
    | _ => .error .typeError
  | .cieLab =>
    match args with
    | [l, aStar, b] => (CIELab_new O l aStar b (getOQ d "a") (resolveCIE d)).map .tupv
    | [l, aStar, b, a] =>
      if (d "a").isSome then .error .typeError
      else (CIELab_new O l aStar b (some a) (resolveCIE d)).map .tupv
    | _ => .error .typeError
  | .hcluv =>
    match args with
    | [h, c, l] => (HCLuv_new O h c l (getOQ d "a") (resolveHCL d)).map .tupv
    | [h, c, l, a] =>
      if (d "a").isSome then .error .typeError
      else (HCLuv_new O h c l (some a) (resolveHCL d)).map .tupv
    | _ => .error .typeError
  | .hclab =>
    match args with
    | [h, c, l] => (HCLab_new O h c l (getOQ d "a") (resolveHCL d)).map .tupv
    | [h, c, l, a] =>
      if (d "a").isSome then .error .typeError
      else (HCLab_new O h c l (some a) (resolveHCL d)).map .tupv
    | _ => .error .typeError
  | .hex => .error .typeError

/-- `ColorFormat.new_color`: updates the caller's keyword dictionary with the
format's fixed parameters (which therefore take precedence) and calls the
bound system's constructor. -/
def ColorFormat.new_color (O : ColormathOracle) (f : ColorFormat)
    (args : List ℚ) (kwargs : Kw) : Except PyErr ColorValue :=
  callSys O f.sys args (dictUpdate kwargs f.params)

/-- The single error kind raised by `ColorFormat.format`. -/
inductive FormatErr where
  | formatError
  deriving DecidableEq, Repr

/-- `_wrap_format_error`: any exception escaping a delegated call is
re-raised as a `FormatError`. -/
def wrapF : Except PyErr α → Except FormatErr α
  | .ok v => .ok v
  | .error _ => .error .formatError

/-- The shapes of color-like input `ColorFormat.format` dispatches on: a
typed color value, a string, a tuple, a list (iterable like a tuple but
distinct for python `tuple.__eq__`), or anything else. -/
inductive ColorLike where
  | typed (c : ColorValue)
  | str (s : String)
  | tup (t : List ℚ)
  | list (t : List ℚ)
  | other

/-- `ColorFormat.format`: the three-way input dispatch of the source with all
failure modes collapsed into `FormatErr`. -/
def pyformat (O : ColormathOracle) (f : ColorFormat) (x : ColorLike) :
    Except FormatErr ColorValue :=
  match x with
  | .typed c => wrapF (.ok (f.fromRgba O c.rgba))
  | .str s =>
    if f.sys = .hex then
      wrapF ((Hex_new s (resolveHex (dictUpdate emptyKw f.params))).map .hexv)
    else if s.length < 8 then
      wrapF ((Hex_new s (resolveHex emptyKw)).map fun h => f.fromRgba O h.rgba)
    else .error .formatError
  | .tup t =>
    if f.sys = .hex then .error .formatError
    else wrapF (f.new_color O t emptyKw)
  | .list t =>
    if f.sys = .hex then .error .formatError
    else wrapF (f.new_color O t emptyKw)
  | .other => .error .formatError

/-- The default color format of `colorir.config`: `ColorFormat(Hex)`. -/
def hexDefaultFmt : ColorFormat := ⟨.hex, emptyKw⟩

/-! ## Equality -/

/-- Channel-wise `np.rint` on the stored integer channels, as
`ColorBase.__eq__` applies before comparing. -/
def rintI (x : RgbaI) : RgbaI := rintRgba (castRgba x)

/-- The value `ColorBase.__eq__` returns: `np.all(...)`, a `numpy.bool_`
scalar, or python's `NotImplemented` when the default format cannot
interpret the right operand (`FormatError` caught). -/
inductive PyEqResult where
  | npBool (b : Bool)
  | notImplemented
  deriving DecidableEq, Repr

/-- Truthiness of a `ColorBase.__eq__` result when python evaluates it in
boolean context: a `numpy.bool_` scalar is truthy per its value.  (The
`notImplemented` case is listed for totality; the typed-operand path that
uses truthiness always yields a numpy bool.) -/
def PyEqResult.isTruthy : PyEqResult → Bool
  | .npBool b => b
  | .notImplemented => false

/-- The identity test `colorbase_eq is True` of the source: a `numpy.bool_`
scalar is a distinct object from the built-in `True` regardless of its
value, and so is `NotImplemented`, so the test never passes. -/
def PyEqResult.isBuiltinTrue : PyEqResult → Bool
  | .npBool _ => false
  | .notImplemented => false

/-- `ColorBase.__eq__` against the default color format `dfmt`: a typed
right operand is compared by rounded canonical channels; any other operand
is first interpreted by the default format, a `FormatError` yielding
`NotImplemented`. -/
def ColorBase_eq (O : ColormathOracle) (dfmt : ColorFormat)
    (self : ColorValue) (obj : ColorLike) : PyEqResult :=
  match obj with
  | .typed c => .npBool (decide (rintI self.rgba = rintI c.rgba))
  | _ =>
    match pyformat O dfmt obj with
    | .ok w => .npBool (decide (rintI self.rgba = rintI w.rgba))
    | .error _ => .notImplemented

/-- `tuple.__eq__(self, other) is True`: element-wise tuple equality with
the displayed tuple content for a genuine tuple operand; for a list,
string, or other non-tuple operand `tuple.__eq__` returns `NotImplemented`,
so the test fails. -/
def tupleDunderEqIsTrue (core : TupleCore) : ColorLike → Bool
  | .tup t => decide (core.specs = t)
  | _ => false

/-- `str.__eq__(self, other) is True`: character-identical string equality
with the stored text for a string operand; otherwise `str.__eq__` returns
`NotImplemented`, so the test fails. -/
def strDunderEqIsTrue (h : HexVal) : ColorLike → Bool
  | .str s => decide (h.s = s)
  | _ => false

/-- `ColorTupleBase.__eq__`: returns `ColorBase.__eq__`'s result for typed
operands (modelled by its truthiness), and otherwise computes
`any([colorbase_eq is True, tuple.__eq__(self, other) is True])` — where the
first identity test never passes, `colorbase_eq` being a numpy bool scalar
or `NotImplemented`. -/
def ColorTupleBase_eq (O : ColormathOracle) (dfmt : ColorFormat)
    (core : TupleCore) (obj : ColorLike) : Bool :=
  let cb := ColorBase_eq O dfmt (.tupv core) obj
  match obj with
  | .typed _ => cb.isTruthy
  | _ => cb.isBuiltinTrue || tupleDunderEqIsTrue core obj

/-- `Hex.__eq__`: returns `ColorBase.__eq__`'s result for typed operands
(modelled by its truthiness), and otherwise computes
`any([colorbase_eq is True, str.__eq__(self, other) is True])` — where the
first identity test never passes, `colorbase_eq` being a numpy bool scalar
or `NotImplemented`. -/
def Hex_eq (O : ColormathOracle) (dfmt : ColorFormat) (h : HexVal)
    (obj : ColorLike) : Bool :=
  let cb := ColorBase_eq O dfmt (.hexv h) obj
  match obj with
  | .typed _ => cb.isTruthy
  | _ => cb.isBuiltinTrue || strDunderEqIsTrue h obj

/-! ## Simplified distance -/

/-- The radicand of `utils.simplified_dist` computed from the two stored
canonical channel vectors. -/
def simplifiedDistSq (c₁ c₂ : ColorValue) : ℚ :=
  let x₁ := c₁.rgba
  let x₂ := c₂.rgba
  let avgR : ℚ := ((x₁.r : ℚ) + (x₂.r : ℚ)) / (2 * 255)
  let dR : ℚ := (x₁.r : ℚ) - (x₂.r : ℚ)
  let dG : ℚ := (x₁.g : ℚ) - (x₂.g : ℚ)
  let dB : ℚ := (x₁.b : ℚ) - (x₂.b : ℚ)
  (2 + avgR) * dR ^ 2 + 4 * dG ^ 2 + (3 - avgR) * dB ^ 2

/-- `utils.simplified_dist` on two already-typed colors. -/
noncomputable def simplifiedDist (c₁ c₂ : ColorValue) : ℝ :=
  Real.sqrt (simplifiedDistSq c₁ c₂)

/-- The simplified-distance radicand exactly as the SPEC words it (§4.3),
for comparison with the implementation: for channel deltas and
`avgR = (R1+R2)/2/255`, the radicand is
`(2+avgR)*dR^2 + 4*dG^2 + (3-avgR)*dB^2`. -/
def specSimplifiedDistSq (R1 G1 B1 R2 G2 B2 : ℚ) : ℚ :=
  let avgR := (R1 + R2) / 2 / 255
  let dR := R1 - R2
  let dG := G1 - G2
  let dB := B1 - B2
  (2 + avgR) * dR ^ 2 + 4 * dG ^ 2 + (3 - avgR) * dB ^ 2

/-- White as an RGB color value (canonical channels 255,255,255,255). -/
def whiteRGB : ColorValue := .tupv (RGB_from_rgba O0 ⟨255, 255, 255, 255⟩ {})

/-- Black as an RGB color value (canonical channels 0,0,0,255). -/
def blackRGB : ColorValue := .tupv (RGB_from_rgba O0 ⟨0, 0, 0, 255⟩ {})

/-- A color format fixing `max_rgb = 255` on the RGB system. -/
def kwMaxRgb255 : Kw := fun k => if k = "max_rgb" then some (.num 255) else none

/-- An override dictionary trying to pass `max_rgb = 1`. -/
def kwOverrideMaxRgb1 : Kw := fun k => if k = "max_rgb" then some (.num 1) else none

/-- An override dictionary passing `round_to = 0`. -/
def kwOverrideRound0 : Kw := fun k => if k = "round_to" then some (.int 0) else none

/-- The canonical channel vector lies within the 0–255 box. -/
def rgbaInRange (x : RgbaI) : Prop :=
  0 ≤ x.r ∧ x.r ≤ 255 ∧ 0 ≤ x.g ∧ x.g ≤ 255 ∧ 0 ≤ x.b ∧ x.b ≤ 255
    ∧ 0 ≤ x.a ∧ x.a ≤ 255

/-! ## Helper lemmas -/

theorem rintI_self (x : RgbaI) : rintI x = x := rintRgba_castRgba x

theorem RGB_from_rgba_rgba (O : ColormathOracle) (x : RgbaI) (p : RGBParams) :
    (RGB_from_rgba O x p).rgba = x := by
  simp [RGB_from_rgba, tupleNew, castRgba, rintRgba, rint_intCast]

theorem HSL_from_rgba_rgba (x : RgbaI) (p : HSLParams) :
    (HSL_from_rgba x p).rgba = x := by
  simp [HSL_from_rgba, tupleNew, castRgba, rintRgba, rint_intCast]

theorem HSV_from_rgba_rgba (x : RgbaI) (p : HSVParams) :
    (HSV_from_rgba x p).rgba = x := by
  simp [HSV_from_rgba, tupleNew, castRgba, rintRgba, rint_intCast]

theorem CMY_from_rgba_rgba (x : RgbaI) (p : CMYParams) :
    (CMY_from_rgba x p).rgba = x := by
  simp [CMY_from_rgba, tupleNew, castRgba, rintRgba, rint_intCast]

theorem CMYK_from_rgba_rgba (x : RgbaI) (p : CMYKParams) :
    (CMYK_from_rgba x p).rgba = x := by
  simp [CMYK_from_rgba, tupleNew, castRgba, rintRgba, rint_intCast]

theorem CIELuv_from_rgba_rgba (O : ColormathOracle) (x : RgbaI) (p : CIEParams) :
    (CIELuv_from_rgba O x p).rgba = x := by
  simp [CIELuv_from_rgba, tupleNew, castRgba, rintRgba, rint_intCast]

theorem CIELab_from_rgba_rgba (O : ColormathOracle) (x : RgbaI) (p : CIEParams) :
    (CIELab_from_rgba O x p).rgba = x := by
  simp [CIELab_from_rgba, tupleNew, castRgba, rintRgba, rint_intCast]

theorem HCLuv_from_rgba_rgba (O : ColormathOracle) (x : RgbaI) (p : HCLParams) :
    (HCLuv_from_rgba O x p).rgba = x := by
  simp [HCLuv_from_rgba, tupleNew, castRgba, rintRgba, rint_intCast]

theorem HCLab_from_rgba_rgba (O : ColormathOracle) (x : RgbaI) (p : HCLParams) :
    (HCLab_from_rgba O x p).rgba = x := by
  simp [HCLab_from_rgba, tupleNew, castRgba, rintRgba, rint_intCast]

theorem Hex_from_rgba_rgba (x : RgbaI) (p : HexParams) :
    (Hex_from_rgba x p).rgba = x := rfl

/-- Equality of two typed values reduces to the rounded canonical channels
(tuple-based left operand). -/
theorem tupleEq_typed_iff (O : ColormathOracle) (dfmt : ColorFormat)
    (core : TupleCore) (w : ColorValue) :
    ColorTupleBase_eq O dfmt core (.typed w) = true ↔
      rintI core.rgba = rintI w.rgba := by
  have he : ColorTupleBase_eq O dfmt core (.typed w)
      = decide (rintI (TupleCore.rgba core) = rintI w.rgba) := rfl
  rw [he]
  exact decide_eq_true_iff

/-- Equality of two typed values reduces to the rounded canonical channels
(hex left operand). -/
theorem hexEq_typed_iff (O : ColormathOracle) (dfmt : ColorFormat)
    (h : HexVal) (w : ColorValue) :
    Hex_eq O dfmt h (.typed w) = true ↔ rintI h.rgba = rintI w.rgba := by
  have he : Hex_eq O dfmt h (.typed w)
      = decide (rintI (HexVal.rgba h) = rintI w.rgba) := rfl
  rw [he]
  exact decide_eq_true_iff

instance {e a : Type} [DecidableEq e] [DecidableEq a] : DecidableEq (Except e a) := fun
  | .ok x, .ok y =>
    if h : x = y then .isTrue (by rw [h]) else .isFalse (by intro hc; injection hc; contradiction)
  | .ok _, .error _ => .isFalse (by intro hc; cases hc)
  | .error _, .ok _ => .isFalse (by intro hc; cases hc)
  | .error x, .error y =>
    if h : x = y then .isTrue (by rw [h]) else .isFalse (by intro hc; injection hc; contradiction)

/-! ## Claim theorems -/

/-- C1: for every color system S among sRGB, HSL, HSV, CMY, CMYK, CIELab,
CIELuv and Hex, and every value v constructed from in-range components,
reconstructing a value from v's canonical channels via `S._from_rgba`
(with any format parameters) yields a value equal to v, equality meaning the
canonical RGBA channel vectors agree after rounding each channel to the
nearest integer. -/
theorem roundtrip_from_canonical (O O2 : ColormathOracle) (dfmt : ColorFormat) :
    (∀ r g b aArg p p2 v, RGB_new O r g b aArg p = .ok v →
      ColorTupleBase_eq O2 dfmt (RGB_from_rgba O2 v.rgba p2) (.typed (.tupv v)) = true)
  ∧ (∀ h s l aArg p p2 v, HSL_new h s l aArg p = .ok v →
      ColorTupleBase_eq O2 dfmt (HSL_from_rgba v.rgba p2) (.typed (.tupv v)) = true)
  ∧ (∀ h s vv aArg p p2 v, HSV_new h s vv aArg p = .ok v →
      ColorTupleBase_eq O2 dfmt (HSV_from_rgba v.rgba p2) (.typed (.tupv v)) = true)
  ∧ (∀ c m y aArg p p2 v, CMY_new c m y aArg p = .ok v →
      ColorTupleBase_eq O2 dfmt (CMY_from_rgba v.rgba p2) (.typed (.tupv v)) = true)
  ∧ (∀ c m y k aArg p p2 v, CMYK_new c m y k aArg p = .ok v →
      ColorTupleBase_eq O2 dfmt (CMYK_from_rgba v.rgba p2) (.typed (.tupv v)) = true)
  ∧ (∀ l u vv aArg p p2 v, CIELuv_new O l u vv aArg p = .ok v →
      ColorTupleBase_eq O2 dfmt (CIELuv_from_rgba O2 v.rgba p2) (.typed (.tupv v)) = true)
  ∧ (∀ l aS b aArg p p2 v, CIELab_new O l aS b aArg p = .ok v →
      ColorTupleBase_eq O2 dfmt (CIELab_from_rgba O2 v.rgba p2) (.typed (.tupv v)) = true)
  ∧ (∀ s p p2 hv, Hex_new s p = .ok hv →
      Hex_eq O2 dfmt (Hex_from_rgba hv.rgba p2) (.typed (.hexv hv)) = true) := by
  refine ⟨?_, ?_, ?_, ?_, ?_, ?_, ?_, ?_⟩
  · intro r g b aArg p p2 v _
    rw [tupleEq_typed_iff, RGB_from_rgba_rgba]
    rfl
  · intro h s l aArg p p2 v _
    rw [tupleEq_typed_iff, HSL_from_rgba_rgba]
    rfl
  · intro h s vv aArg p p2 v _
    rw [tupleEq_typed_iff, HSV_from_rgba_rgba]
    rfl
  · intro c m y aArg p p2 v _
    rw [tupleEq_typed_iff, CMY_from_rgba_rgba]
    rfl
  · intro c m y k aArg p p2 v _
    rw [tupleEq_typed_iff, CMYK_from_rgba_rgba]
    rfl
  · intro l u vv aArg p p2 v _
    rw [tupleEq_typed_iff, CIELuv_from_rgba_rgba]
    rfl
  · intro l aS b aArg p p2 v _
    rw [tupleEq_typed_iff, CIELab_from_rgba_rgba]
    rfl
  · intro s p p2 hv _
    rw [hexEq_typed_iff, Hex_from_rgba_rgba]
    rfl

/-- C1 witness: the round trip at concrete in-range values of each of the
eight systems. -/
theorem roundtrip_from_canonical_witness :
    ColorTupleBase_eq O0 hexDefaultFmt
      (RGB_from_rgba O0 (⟨255, 0, 0, 255⟩ : RgbaI) {})
      (.typed (.tupv ⟨[1, 0, 0], 1, ⟨255, 0, 0, 255⟩, false, -1⟩)) = true
  ∧ ColorTupleBase_eq O0 hexDefaultFmt
      (HSL_from_rgba (⟨255, 0, 0, 255⟩ : RgbaI) {})
      (.typed (.tupv ⟨[0, 1, 1/2], 1, ⟨255, 0, 0, 255⟩, false, -1⟩)) = true
  ∧ ColorTupleBase_eq O0 hexDefaultFmt
      (HSV_from_rgba (⟨0, 0, 0, 255⟩ : RgbaI) {})
      (.typed (.tupv ⟨[0, 0, 0], 1, ⟨0, 0, 0, 255⟩, false, -1⟩)) = true
  ∧ ColorTupleBase_eq O0 hexDefaultFmt
      (CMY_from_rgba (⟨255, 255, 255, 255⟩ : RgbaI) {})
      (.typed (.tupv ⟨[0, 0, 0], 1, ⟨255, 255, 255, 255⟩, false, -1⟩)) = true
  ∧ ColorTupleBase_eq O0 hexDefaultFmt
      (CMYK_from_rgba (⟨255, 255, 255, 255⟩ : RgbaI) {})
      (.typed (.tupv ⟨[0, 0, 0, 0], 1, ⟨255, 255, 255, 255⟩, false, -1⟩)) = true
  ∧ ColorTupleBase_eq O0 hexDefaultFmt
      (CIELuv_from_rgba O0 (⟨0, 0, 0, 255⟩ : RgbaI) {})
      (.typed (.tupv ⟨[50, 0, 0], 1, ⟨0, 0, 0, 255⟩, false, -1⟩)) = true
  ∧ ColorTupleBase_eq O0 hexDefaultFmt
      (CIELab_from_rgba O0 (⟨0, 0, 0, 255⟩ : RgbaI) {})
      (.typed (.tupv ⟨[50, 0, 0], 1, ⟨0, 0, 0, 255⟩, false, -1⟩)) = true
  ∧ Hex_eq O0 hexDefaultFmt
      (Hex_from_rgba (⟨255, 0, 0, 255⟩ : RgbaI) {})
      (.typed (.hexv ⟨"#ff0000", ⟨255, 0, 0, 255⟩, false, true, false, false⟩)) = true := by
  refine ⟨?_, ?_, ?_, ?_, ?_, ?_, ?_, ?_⟩
  · exact (roundtrip_from_canonical O0 O0 hexDefaultFmt).1 1 0 0 none {} {}
      ⟨[1, 0, 0], 1, ⟨255, 0, 0, 255⟩, false, -1⟩ (by decide)
  · exact (roundtrip_from_canonical O0 O0 hexDefaultFmt).2.1 0 1 (1/2) none {} {}
      ⟨[0, 1, 1/2], 1, ⟨255, 0, 0, 255⟩, false, -1⟩ (by decide)
  · exact (roundtrip_from_canonical O0 O0 hexDefaultFmt).2.2.1 0 0 0 none {} {}
      ⟨[0, 0, 0], 1, ⟨0, 0, 0, 255⟩, false, -1⟩ (by decide)
  · exact (roundtrip_from_canonical O0 O0 hexDefaultFmt).2.2.2.1 0 0 0 none {} {}
      ⟨[0, 0, 0], 1, ⟨255, 255, 255, 255⟩, false, -1⟩ (by decide)
  · exact (roundtrip_from_canonical O0 O0 hexDefaultFmt).2.2.2.2.1 0 0 0 0 none {} {}
      ⟨[0, 0, 0, 0], 1, ⟨255, 255, 255, 255⟩, false, -1⟩ (by decide)
  · exact (roundtrip_from_canonical O0 O0 hexDefaultFmt).2.2.2.2.2.1 50 0 0 none {} {}
      ⟨[50, 0, 0], 1, ⟨0, 0, 0, 255⟩, false, -1⟩ (by decide)
  · exact (roundtrip_from_canonical O0 O0 hexDefaultFmt).2.2.2.2.2.2.1 50 0 0 none {} {}
      ⟨[50, 0, 0], 1, ⟨0, 0, 0, 255⟩, false, -1⟩ (by decide)
  · exact (roundtrip_from_canonical O0 O0 hexDefaultFmt).2.2.2.2.2.2.2 "ff0000" {} {}
      ⟨"#ff0000", ⟨255, 0, 0, 255⟩, false, true, false, false⟩ (by decide)

/-- C2: two typed color values compare equal exactly when their canonical
RGBA channel vectors agree after rounding each channel to the nearest
integer, regardless of the systems or format parameters involved; the same
color constructed in RGB and in HSL compares equal; and the display
parameters (alpha inclusion, rounding precision, casing, hash) do not alter
the stored canonical channels. -/
theorem equality_is_rounded_canonical (O : ColormathOracle) (dfmt : ColorFormat) :
    (∀ core w, ColorTupleBase_eq O dfmt core (.typed w) = true ↔
      rintI core.rgba = rintI w.rgba)
  ∧ (∀ h w, Hex_eq O dfmt h (.typed w) = true ↔ rintI h.rgba = rintI w.rgba)
  ∧ (∃ v₁ v₂, RGB_new O0 1 0 0 none {} = .ok v₁ ∧ HSL_new 0 1 (1/2) none {} = .ok v₂
      ∧ ColorTupleBase_eq O dfmt v₁ (.typed (.tupv v₂)) = true)
  ∧ (∀ r g b aArg mr ma lin ia₁ rt₁ ia₂ rt₂,
      (RGB_new O r g b aArg ⟨mr, ma, ia₁, rt₁, lin⟩).map TupleCore.rgba
        = (RGB_new O r g b aArg ⟨mr, ma, ia₂, rt₂, lin⟩).map TupleCore.rgba)
  ∧ (∀ x up₁ ih₁ ia₁ ta₁ up₂ ih₂ ia₂ ta₂,
      (Hex_from_rgba x ⟨up₁, ih₁, ia₁, ta₁⟩).rgba
        = (Hex_from_rgba x ⟨up₂, ih₂, ia₂, ta₂⟩).rgba) := by
  refine ⟨tupleEq_typed_iff O dfmt, hexEq_typed_iff O dfmt, ?_, ?_, ?_⟩
  · refine ⟨⟨[1, 0, 0], 1, ⟨255, 0, 0, 255⟩, false, -1⟩,
      ⟨[0, 1, 1/2], 1, ⟨255, 0, 0, 255⟩, false, -1⟩, by decide, by decide, ?_⟩
    rw [tupleEq_typed_iff]
    rfl
  · intro r g b aArg mr ma lin ia₁ rt₁ ia₂ rt₂
    unfold RGB_new
    dsimp only
    split
    · rfl
    · split
      · rfl
      · rfl
  · intro x up₁ ih₁ ia₁ ta₁ up₂ ih₂ ia₂ ta₂
    rfl

/-- C3: `ColorFormat.format` signals every failure as the single error kind
`FormatErr.formatError`: a numeric tuple or list against a hex-bound format,
a string of eight or more characters against a non-hex-bound format, an
input of unrecognized shape, and any exception of a delegated constructor
are all reported as that one error kind, and no other outcome than a value
or that error is possible. -/
theorem format_single_error_kind (O : ColormathOracle) :
    (∀ p t, pyformat O ⟨.hex, p⟩ (.tup t) = .error .formatError
      ∧ pyformat O ⟨.hex, p⟩ (.list t) = .error .formatError)
  ∧ (∀ f s, f.sys ≠ .hex → 8 ≤ s.length →
      pyformat O f (.str s) = .error .formatError)
  ∧ (∀ f, pyformat O f .other = .error .formatError)
  ∧ (∀ f x, (∃ v, pyformat O f x = .ok v) ∨ pyformat O f x = .error .formatError)
  ∧ pyformat O0 hexDefaultFmt (.str "zzz") = .error .formatError := by
  refine ⟨?_, ?_, ?_, ?_, by decide⟩
  · intro p t
    constructor <;> rfl
  · intro f s hsys hlen
    show (if f.sys = SysTag.hex then
        wrapF ((Hex_new s (resolveHex (dictUpdate emptyKw f.params))).map .hexv)
      else if s.length < 8 then
        wrapF ((Hex_new s (resolveHex emptyKw)).map fun h => f.fromRgba O h.rgba)
      else .error .formatError) = .error .formatError
    rw [if_neg hsys, if_neg (by omega : ¬s.length < 8)]
  · intro f
    rfl
  · intro f x
    cases h : pyformat O f x with
    | ok v => exact .inl ⟨v, rfl⟩
    | error e => cases e; exact .inr rfl

/-- C3 witness: the eight-hex-digit string rejection applied at a concrete
non-hex format and string. -/
theorem format_single_error_kind_witness :
    pyformat O0 ⟨.rgb, emptyKw⟩ (.str "#ff0000ff") = .error .formatError :=
  (format_single_error_kind O0).2.1 ⟨.rgb, emptyKw⟩ "#ff0000ff"
    (by decide) (by decide)

/-- C4 (counterexample): parsing `"#ff0000ff"` with the alpha-trailing and the
alpha-leading configuration yields the SAME canonical alpha channel (255 in
both cases, since both candidate alpha byte pairs of this string are `ff`),
contradicting the claim that the two configurations give a different
canonical alpha for this input. -/
theorem hex_alpha_position_cex :
    (Hex_new "#ff0000ff" { tail_a := some true }).map (fun h => h.rgba.a)
      = (Hex_new "#ff0000ff" { tail_a := some false }).map (fun h => h.rgba.a)
    ∧ (Hex_new "#ff0000ff" { tail_a := some true }).map (fun h => h.rgba.a)
      = .ok 255 := by
  constructor <;> decide

/-- C4 (amended): `Hex("ff0000")`, `Hex("#FF0000")` and `Hex("f00")` all parse
to canonical RGBA (255,0,0,255); for an 8-digit string the alpha-position
flag selects which byte pair is the alpha byte, so `"#ff0000ff"` parsed with
the two configurations yields different canonical RGBA (differing in the
red and blue channels, the alpha coinciding at 255 for this string), and a
string whose leading and trailing byte pairs differ, such as `"#ff000080"`,
yields a different canonical alpha under the two configurations. -/
theorem hex_parsing_edge_cases :
    (Hex_new "ff0000" {}).map HexVal.rgba = .ok ⟨255, 0, 0, 255⟩
  ∧ (Hex_new "#FF0000" {}).map HexVal.rgba = .ok ⟨255, 0, 0, 255⟩
  ∧ (Hex_new "f00" {}).map HexVal.rgba = .ok ⟨255, 0, 0, 255⟩
  ∧ (Hex_new "#ff0000ff" { tail_a := some true }).map HexVal.rgba
      ≠ (Hex_new "#ff0000ff" { tail_a := some false }).map HexVal.rgba
  ∧ (Hex_new "#ff000080" { tail_a := some true }).map (fun h => h.rgba.a)
      ≠ (Hex_new "#ff000080" { tail_a := some false }).map (fun h => h.rgba.a) := by
  refine ⟨by decide, by decide, by decide, by decide, by decide⟩

/-- C5: `new_color` constructs the bound system's value with the format's
fixed keyword parameters taking precedence over caller-supplied overrides
(two override dictionaries that agree outside the fixed keys give identical
results), a fixed key always reaches the constructor with the format's
value, a key not fixed by the format passes through from the caller
unchanged, and positional arguments are spread into the constructor's
component parameters directly. -/
theorem new_color_fixed_params_precedence (O : ColormathOracle) :
    (∀ (f : ColorFormat) args o₁ o₂, (∀ k, f.params k = none → o₁ k = o₂ k) →
      f.new_color O args o₁ = f.new_color O args o₂)
  ∧ (∀ (f : ColorFormat) (o : Kw) k v, f.params k = some v →
      dictUpdate o f.params k = some v)
  ∧ (∀ (f : ColorFormat) (o : Kw) k, f.params k = none →
      dictUpdate o f.params k = o k)
  ∧ (∀ (d : Kw) r g b, callSys O .rgb [r, g, b] d
      = (RGB_new O r g b (getOQ d "a") (resolveRGB d)).map ColorValue.tupv) := by
  refine ⟨?_, ?_, ?_, ?_⟩
  · intro f args o₁ o₂ hagree
    have hm : dictUpdate o₁ f.params = dictUpdate o₂ f.params := by
      funext k
      cases hk : f.params k with
      | some v => simp [dictUpdate, hk, Option.orElse]
      | none => simp [dictUpdate, hk, Option.orElse, hagree k hk]
    unfold ColorFormat.new_color
    rw [hm]
  · intro f o k v hk
    simp [dictUpdate, hk, Option.orElse]
  · intro f o k hk
    simp [dictUpdate, hk, Option.orElse]
  · intro d r g b
    rfl

/-- C5 witness: with `max_rgb` fixed to 255 by the format, an override trying
`max_rgb = 1` is ignored, the fixed key reaches the constructor as 255, and a
non-fixed key (`round_to`) passes through from the caller. -/
theorem new_color_fixed_params_precedence_witness :
    ColorFormat.new_color O0 ⟨.rgb, kwMaxRgb255⟩ [255, 0, 0] kwOverrideMaxRgb1
      = ColorFormat.new_color O0 ⟨.rgb, kwMaxRgb255⟩ [255, 0, 0] emptyKw
  ∧ dictUpdate kwOverrideMaxRgb1 kwMaxRgb255 "max_rgb" = some (.num 255)
  ∧ dictUpdate kwOverrideRound0 kwMaxRgb255 "round_to" = some (.int 0) := by
  refine ⟨?_, ?_, ?_⟩
  · refine (new_color_fixed_params_precedence O0).1 ⟨.rgb, kwMaxRgb255⟩ [255, 0, 0]
      kwOverrideMaxRgb1 emptyKw ?_
    intro k hk
    by_cases hmk : k = "max_rgb"
    · rw [hmk] at hk
      exact absurd hk (by decide)
    · simp [kwOverrideMaxRgb1, emptyKw, hmk]
  · exact (new_color_fixed_params_precedence O0).2.1 ⟨.rgb, kwMaxRgb255⟩
      kwOverrideMaxRgb1 "max_rgb" (.num 255) (by decide)
  · exact (new_color_fixed_params_precedence O0).2.2.1 ⟨.rgb, kwMaxRgb255⟩
      kwOverrideRound0 "round_to" (by decide)

/-- C6: the simplified distance equals the square root of the spec's
radicand `(2+avgR)*dR^2 + 4*dG^2 + (3-avgR)*dB^2` with
`avgR = (R1+R2)/2/255` computed on the canonical channels, and for white
(255,255,255) against black (0,0,0) it is exactly 765. -/
theorem simplified_dist_correct :
    (∀ c₁ c₂, simplifiedDist c₁ c₂ = Real.sqrt (specSimplifiedDistSq
      c₁.rgba.r c₁.rgba.g c₁.rgba.b c₂.rgba.r c₂.rgba.g c₂.rgba.b))
  ∧ simplifiedDist whiteRGB blackRGB = 765 := by
  have hsq : ∀ c₁ c₂ : ColorValue, simplifiedDistSq c₁ c₂ = specSimplifiedDistSq
      c₁.rgba.r c₁.rgba.g c₁.rgba.b c₂.rgba.r c₂.rgba.g c₂.rgba.b := by
    intro c₁ c₂
    unfold simplifiedDistSq specSimplifiedDistSq
    ring
  constructor
  · intro c₁ c₂
    unfold simplifiedDist
    rw [hsq]
  · unfold simplifiedDist
    have h5 : simplifiedDistSq whiteRGB blackRGB = 585225 := by decide
    rw [h5]
    have h7 : ((585225 : ℚ) : ℝ) = 765 ^ 2 := by norm_num
    rw [h7, Real.sqrt_sq (by norm_num : (0:ℝ) ≤ 765)]

/-- C7 (counterexample): `RGB(0.5, 0, 0)` with `max_rgb = 1` has exact
canonical red channel 127.5, but the value stores the integer 128 (rounded at
construction by `np.rint(...).astype(int)`), and a subsequent conversion to
0–255-scale RGB recovers 128, not 127.5. -/
theorem float_storage_cex :
    (RGB_new O0 (1/2) 0 0 none {}).map TupleCore.rgba = .ok ⟨128, 0, 0, 255⟩
  ∧ (RGB_from_rgba O0 ⟨128, 0, 0, 255⟩ { max_rgb := 255 }).specs = [128, 0, 0] := by
  constructor <;> decide

/-- C7 (amended): every RGB value stores its canonical channels rounded
half-to-even to integers at construction time, so a sub-integer canonical
channel (such as red 127.5 from `RGB(0.5, 0, 0)` with `max_rgb = 1`) is
stored as the nearest integer (128) and is what later conversions see. -/
theorem integer_storage (O : ColormathOracle) :
    (∀ r g b aArg p v, p.linear = false → RGB_new O r g b aArg p = .ok v →
      v.rgba = rintRgba ⟨r / p.max_rgb * 255, g / p.max_rgb * 255,
        b / p.max_rgb * 255, (aArg.getD p.max_a) / p.max_a * 255⟩)
  ∧ (RGB_new O0 (1/2) 0 0 none {}).map TupleCore.rgba = .ok ⟨128, 0, 0, 255⟩ := by
  constructor
  · intro r g b aArg p v hlin h
    unfold RGB_new at h
    simp only [] at h
    by_cases hA : aArg.isSome = true
        ∧ ¬(0 ≤ aArg.getD p.max_a ∧ aArg.getD p.max_a ≤ p.max_a)
    · rw [if_pos hA] at h
      exact absurd h (by simp)
    · rw [if_neg hA] at h
      by_cases hB : 0 ≤ r ∧ r ≤ p.max_rgb ∧ 0 ≤ g ∧ g ≤ p.max_rgb
          ∧ 0 ≤ b ∧ b ≤ p.max_rgb
      · rw [if_neg (not_not_intro hB)] at h
        injection h with h
        subst h
        simp [tupleNew, hlin]
      · rw [if_pos hB] at h
        exact absurd h (by simp)
  · decide

/-- C7 amended witness: the storage equation applied at `RGB(0.5, 0, 0)`. -/
theorem integer_storage_witness :
    (⟨[1/2, 0, 0], 1, ⟨128, 0, 0, 255⟩, false, -1⟩ : TupleCore).rgba
      = rintRgba ⟨1/2 / 1 * 255, 0 / 1 * 255, 0 / 1 * 255,
          ((none : Option ℚ).getD 1) / 1 * 255⟩ :=
  (integer_storage O0).1 (1/2) 0 0 none {}
    ⟨[1/2, 0, 0], 1, ⟨128, 0, 0, 255⟩, false, -1⟩ rfl (by decide)

theorem rgbaInRange_rintRgba {x : Rgba}
    (hr0 : 0 ≤ x.r) (hr1 : x.r ≤ 255) (hg0 : 0 ≤ x.g) (hg1 : x.g ≤ 255)
    (hb0 : 0 ≤ x.b) (hb1 : x.b ≤ 255) (ha0 : 0 ≤ x.a) (ha1 : x.a ≤ 255) :
    rgbaInRange (rintRgba x) := by
  unfold rgbaInRange rintRgba
  exact ⟨rint_nonneg hr0, rint_le_of_le (by exact_mod_cast hr1),
    rint_nonneg hg0, rint_le_of_le (by exact_mod_cast hg1),
    rint_nonneg hb0, rint_le_of_le (by exact_mod_cast hb1),
    rint_nonneg ha0, rint_le_of_le (by exact_mod_cast ha1)⟩

theorem clamp01_mul255_nonneg (q : ℚ) : 0 ≤ clamp01 q * 255 := by
  unfold clamp01
  positivity

theorem clamp01_mul255_le (q : ℚ) : clamp01 q * 255 ≤ 255 := by
  have h : clamp01 q ≤ 1 := by
    unfold clamp01
    exact max_le (by norm_num) (min_le_left _ _)
  nlinarith

theorem div_mul255_nonneg {a m : ℚ} (ha : 0 ≤ a) (hm : 0 < m) :
    0 ≤ a / m * 255 := by positivity

theorem div_mul255_le {a m : ℚ} (ha : a ≤ m) (hm : 0 < m) :
    a / m * 255 ≤ 255 := by
  have h1 : a / m ≤ 1 := (div_le_one hm).mpr ha
  nlinarith

/-- C8: for every CIELuv or CIELab construction from components satisfying
the declared preconditions (`0 ≤ l ≤ 100`, alpha within its positive
declared maximum), construction succeeds (no error branch is reachable) and
the attached canonical channels lie within [0, 255], because out-of-gamut
RGB conversion results are clamped to [0, 1] before scaling. -/
theorem cie_construction_never_raises (O : ColormathOracle) :
    (∀ l u v aArg p, 0 ≤ l → l ≤ 100 →
      (∀ a, aArg = some a → 0 ≤ a ∧ a ≤ p.max_a) → 0 < p.max_a →
      ∃ val, CIELuv_new O l u v aArg p = .ok val ∧ rgbaInRange val.rgba)
  ∧ (∀ l aS b aArg p, 0 ≤ l → l ≤ 100 →
      (∀ a, aArg = some a → 0 ≤ a ∧ a ≤ p.max_a) → 0 < p.max_a →
      ∃ val, CIELab_new O l aS b aArg p = .ok val ∧ rgbaInRange val.rgba) := by
  have halpha : ∀ (aArg : Option ℚ) (m : ℚ),
      (∀ a, aArg = some a → 0 ≤ a ∧ a ≤ m) → 0 < m →
      0 ≤ aArg.getD m / m * 255 ∧ aArg.getD m / m * 255 ≤ 255 := by
    intro aArg m ha hm
    cases aArg with
    | none =>
      refine ⟨div_mul255_nonneg (le_of_lt hm) hm, div_mul255_le le_rfl hm⟩
    | some a0 =>
      obtain ⟨h0, h1⟩ := ha a0 rfl
      exact ⟨div_mul255_nonneg h0 hm, div_mul255_le h1 hm⟩
  have hcond : ∀ (aArg : Option ℚ) (m : ℚ),
      (∀ a, aArg = some a → 0 ≤ a ∧ a ≤ m) →
      ¬(aArg.isSome = true ∧ ¬(0 ≤ aArg.getD m ∧ aArg.getD m ≤ m)) := by
    intro aArg m ha
    cases aArg with
    | none => simp
    | some a0 => simpa using ha a0 rfl
  constructor
  · intro l u v aArg p h0 h1 ha hm
    refine ⟨tupleNew [l, u, v] (aArg.getD p.max_a)
        ⟨clamp01 (O.rgbOfLuv l u v).1 * 255, clamp01 (O.rgbOfLuv l u v).2.1 * 255,
          clamp01 (O.rgbOfLuv l u v).2.2 * 255, aArg.getD p.max_a / p.max_a * 255⟩
        p.include_a p.round_to, ?_, ?_⟩
    · unfold CIELuv_new
      simp only []
      rw [if_neg (hcond aArg p.max_a ha), if_neg (not_not_intro ⟨h0, h1⟩)]
    · obtain ⟨ha0, ha1⟩ := halpha aArg p.max_a ha hm
      exact rgbaInRange_rintRgba (clamp01_mul255_nonneg _) (clamp01_mul255_le _)
        (clamp01_mul255_nonneg _) (clamp01_mul255_le _)
        (clamp01_mul255_nonneg _) (clamp01_mul255_le _) ha0 ha1
  · intro l aS b aArg p h0 h1 ha hm
    refine ⟨tupleNew [l, aS, b] (aArg.getD p.max_a)
        ⟨clamp01 (O.rgbOfLab l aS b).1 * 255, clamp01 (O.rgbOfLab l aS b).2.1 * 255,
          clamp01 (O.rgbOfLab l aS b).2.2 * 255, aArg.getD p.max_a / p.max_a * 255⟩
        p.include_a p.round_to, ?_, ?_⟩
    · unfold CIELab_new
      simp only []
      rw [if_neg (hcond aArg p.max_a ha), if_neg (not_not_intro ⟨h0, h1⟩)]
    · obtain ⟨ha0, ha1⟩ := halpha aArg p.max_a ha hm
      exact rgbaInRange_rintRgba (clamp01_mul255_nonneg _) (clamp01_mul255_le _)
        (clamp01_mul255_nonneg _) (clamp01_mul255_le _)
        (clamp01_mul255_nonneg _) (clamp01_mul255_le _) ha0 ha1

/-- C8 witness: construction at `CIELuv(50, 0, 0)` and `CIELab(50, 0, 0)`
with default parameters succeeds with in-range canonical channels. -/
theorem cie_construction_never_raises_witness :
    (∃ val, CIELuv_new O0 50 0 0 none {} = .ok val ∧ rgbaInRange val.rgba)
  ∧ (∃ val, CIELab_new O0 50 0 0 none {} = .ok val ∧ rgbaInRange val.rgba) :=
  ⟨(cie_construction_never_raises O0).1 50 0 0 none {} (by norm_num) (by norm_num)
      (fun a ha => by cases ha) (by norm_num),
    (cie_construction_never_raises O0).2 50 0 0 none {} (by norm_num) (by norm_num)
      (fun a ha => by cases ha) (by norm_num)⟩

theorem rint_255 : rint (255 : ℚ) = 255 := by
  have h : (255 : ℚ) = ((255 : ℤ) : ℚ) := by norm_num
  rw [h, rint_intCast]

theorem rint_div_self_mul255 {m : ℚ} (hm : m ≠ 0) : rint (m / m * 255) = 255 := by
  rw [div_self hm, one_mul, rint_255]

/-- C9 (counterexample): with the shipped default color format (Hex-based),
the string `"ff0000"` interprets under the default format to the same
rounded canonical channels as the value `Hex("#ff0000")`, yet the program's
equality returns False — the source's `colorbase_eq is True` identity test
never passes because `ColorBase.__eq__` returns a numpy bool scalar — so
default-format canonical agreement does not make an untyped operand equal,
refuting the claim's first disjunct. -/
theorem eq_untyped_canonical_route_cex :
    (∃ w, pyformat O0 hexDefaultFmt (.str "ff0000") = .ok w
      ∧ rintI (⟨"#ff0000", ⟨255, 0, 0, 255⟩, false, true, false, false⟩ : HexVal).rgba
          = rintI w.rgba)
  ∧ Hex_eq O0 hexDefaultFmt
      ⟨"#ff0000", ⟨255, 0, 0, 255⟩, false, true, false, false⟩ (.str "ff0000") = false :=
  ⟨⟨.hexv ⟨"#ff0000", ⟨255, 0, 0, 255⟩, false, true, false, false⟩, by decide, by decide⟩,
    by decide⟩

/-- C9 (amended): for untyped right-hand operands equality is decided solely
by the displayed representation: a tuple-based value equals a plain tuple
exactly when the tuple equals the displayed native-component tuple
element-wise, a hex value equals a plain string exactly when the string is
character-for-character identical to the stored text, and a list operand, a
string against a tuple-based value, or a tuple or list against a hex value
is never equal; the code's default-format canonical route (`colorbase_eq is
True`) never yields True for any operand, because `ColorBase.__eq__`
returns a numpy bool scalar or `NotImplemented`, never the built-in True —
so, for untyped right-hand operands, equality is not determined by rounded
canonical channels at all. -/
theorem eq_untyped_operands_amended (O : ColormathOracle) (dfmt : ColorFormat) :
    (∀ core t, ColorTupleBase_eq O dfmt core (.tup t) = true ↔ core.specs = t)
  ∧ (∀ core t, ColorTupleBase_eq O dfmt core (.list t) = false)
  ∧ (∀ core s, ColorTupleBase_eq O dfmt core (.str s) = false)
  ∧ (∀ h s, Hex_eq O dfmt h (.str s) = true ↔ h.s = s)
  ∧ (∀ h t, Hex_eq O dfmt h (.tup t) = false ∧ Hex_eq O dfmt h (.list t) = false)
  ∧ (∀ self obj, (ColorBase_eq O dfmt self obj).isBuiltinTrue = false) := by
  have hnever : ∀ r : PyEqResult, r.isBuiltinTrue = false := by
    intro r
    cases r <;> rfl
  refine ⟨?_, ?_, ?_, ?_, ?_, ?_⟩
  · intro core t
    have he : ColorTupleBase_eq O dfmt core (.tup t)
        = ((ColorBase_eq O dfmt (.tupv core) (.tup t)).isBuiltinTrue
            || decide (core.specs = t)) := rfl
    rw [he, hnever]
    simp
  · intro core t
    have he : ColorTupleBase_eq O dfmt core (.list t)
        = ((ColorBase_eq O dfmt (.tupv core) (.list t)).isBuiltinTrue || false) := rfl
    rw [he, hnever]
    rfl
  · intro core s
    have he : ColorTupleBase_eq O dfmt core (.str s)
        = ((ColorBase_eq O dfmt (.tupv core) (.str s)).isBuiltinTrue || false) := rfl
    rw [he, hnever]
    rfl
  · intro h s
    have he : Hex_eq O dfmt h (.str s)
        = ((ColorBase_eq O dfmt (.hexv h) (.str s)).isBuiltinTrue
            || decide (h.s = s)) := rfl
    rw [he, hnever]
    simp
  · intro h t
    constructor
    · have he : Hex_eq O dfmt h (.tup t)
          = ((ColorBase_eq O dfmt (.hexv h) (.tup t)).isBuiltinTrue || false) := rfl
      rw [he, hnever]
      rfl
    · have he : Hex_eq O dfmt h (.list t)
          = ((ColorBase_eq O dfmt (.hexv h) (.list t)).isBuiltinTrue || false) := rfl
      rw [he, hnever]
      rfl
  · intro self obj
    exact hnever _

/-- C10 (counterexample): with the alpha argument omitted, declared maximum
`max_a = 1/2` and display rounding `round_to = 0`, RGB stores alpha component
0 (the rounded value), not the declared maximum 1/2, although the canonical
alpha channel is still 255. -/
theorem default_alpha_cex :
    (RGB_new O0 0 0 0 none { max_a := 1/2, round_to := 0 }).map
      (fun v => (v.a, v.rgba.a)) = .ok (0, 255) := by decide

/-- C10 (amended): omitting the alpha argument produces a fully opaque color
in every system: the canonical alpha channel equals 255, and the stored
alpha component equals the declared alpha maximum after the value's
`round_to` display rounding (hence equals the declared maximum itself
whenever `round_to` is negative, the default); a hex string of fewer than 8
digits likewise parses with canonical alpha 255. -/
theorem omitted_alpha_defaults (O : ColormathOracle) :
    (∀ r g b p v, 0 < p.max_a → RGB_new O r g b none p = .ok v →
      v.a = roundSpec p.round_to p.max_a ∧ v.rgba.a = 255)
  ∧ (∀ h s l p v, 0 < p.max_sla → HSL_new h s l none p = .ok v →
      v.a = roundSpec p.round_to p.max_sla ∧ v.rgba.a = 255)
  ∧ (∀ h s vv p v, 0 < p.max_sva → HSV_new h s vv none p = .ok v →
      v.a = roundSpec p.round_to p.max_sva ∧ v.rgba.a = 255)
  ∧ (∀ c m y p v, 0 < p.max_cmya → CMY_new c m y none p = .ok v →
      v.a = roundSpec p.round_to p.max_cmya ∧ v.rgba.a = 255)
  ∧ (∀ c m y k p v, 0 < p.max_cmyka → CMYK_new c m y k none p = .ok v →
      v.a = roundSpec p.round_to p.max_cmyka ∧ v.rgba.a = 255)
  ∧ (∀ l u vv p v, 0 < p.max_a → CIELuv_new O l u vv none p = .ok v →
      v.a = roundSpec p.round_to p.max_a ∧ v.rgba.a = 255)
  ∧ (∀ l aS b p v, 0 < p.max_a → CIELab_new O l aS b none p = .ok v →
      v.a = roundSpec p.round_to p.max_a ∧ v.rgba.a = 255)
  ∧ (∀ s p hv, Hex_new s p = .ok hv →
      (s.toList.dropWhile (fun c => c = '#')).length ≠ 8 → hv.rgba.a = 255) := by
  refine ⟨?_, ?_, ?_, ?_, ?_, ?_, ?_, ?_⟩
  · intro r g b p v hm h
    unfold RGB_new at h
    simp only [] at h
    rw [if_neg (by simp)] at h
    by_cases hB : 0 ≤ r ∧ r ≤ p.max_rgb ∧ 0 ≤ g ∧ g ≤ p.max_rgb
        ∧ 0 ≤ b ∧ b ≤ p.max_rgb
    · rw [if_neg (not_not_intro hB)] at h
      injection h with h
      subst h
      refine ⟨rfl, ?_⟩
      show rint ((if p.linear = true then toSrgb O _ else _).a * 255) = 255
      cases hp : p.linear <;>
        simp only [hp, if_true, if_false, Bool.false_eq_true, toSrgb] <;>
        exact rint_div_self_mul255 (ne_of_gt hm)
    · rw [if_pos hB] at h
      exact absurd h (by simp)
  · intro h s l p v hm hok
    unfold HSL_new at hok
    simp only [] at hok
    split at hok
    · exact absurd hok (by simp)
    · injection hok with hok
      subst hok
      refine ⟨rfl, ?_⟩
      show rint (p.max_sla / p.max_sla * 255) = 255
      exact rint_div_self_mul255 (ne_of_gt hm)
  · intro h s vv p v hm hok
    unfold HSV_new at hok
    simp only [] at hok
    split at hok
    · exact absurd hok (by simp)
    · injection hok with hok
      subst hok
      refine ⟨rfl, ?_⟩
      show rint (p.max_sva / p.max_sva * 255) = 255
      exact rint_div_self_mul255 (ne_of_gt hm)
  · intro c m y p v hm hok
    unfold CMY_new at hok
    simp only [] at hok
    split at hok
    · exact absurd hok (by simp)
    · injection hok with hok
      subst hok
      refine ⟨rfl, ?_⟩
      show rint (p.max_cmya / p.max_cmya * 255) = 255
      exact rint_div_self_mul255 (ne_of_gt hm)
  · intro c m y k p v hm hok
    unfold CMYK_new at hok
    simp only [] at hok
    split at hok
    · exact absurd hok (by simp)
    · injection hok with hok
      subst hok
      refine ⟨rfl, ?_⟩
      show rint (p.max_cmyka / p.max_cmyka * 255) = 255
      exact rint_div_self_mul255 (ne_of_gt hm)
  · intro l u vv p v hm hok
    unfold CIELuv_new at hok
    simp only [] at hok
    rw [if_neg (by simp)] at hok
    split at hok
    · exact absurd hok (by simp)
    · injection hok with hok
      subst hok
      refine ⟨rfl, ?_⟩
      show rint (p.max_a / p.max_a * 255) = 255
      exact rint_div_self_mul255 (ne_of_gt hm)
  · intro l aS b p v hm hok
    unfold CIELab_new at hok
    simp only [] at hok
    rw [if_neg (by simp)] at hok
    split at hok
    · exact absurd hok (by simp)
    · injection hok with hok
      subst hok
      refine ⟨rfl, ?_⟩
      show rint (p.max_a / p.max_a * 255) = 255
      exact rint_div_self_mul255 (ne_of_gt hm)
  · intro s p hv h hlen
    unfold Hex_new at h
    simp only [] at h
    split at h
    · exact absurd h (by simp)
    · split at h
      · split at h
        · injection h with h
          subst h
          rfl
        · exact absurd h (by simp)
      · exfalso
        rename_i heq
        by_cases h3 : (s.toList.dropWhile (fun c => c = '#')).length = 3
        · rw [if_pos h3] at heq
          obtain ⟨c1, c2, c3, hcs⟩ := List.length_eq_three.mp h3
          rw [hcs] at heq
          simp at heq
        · rw [if_neg h3] at heq
          refine hlen ?_
          rw [heq]
          simp
      · exact absurd h (by simp)


/-- C10 amended witness: the opaque-default behavior at concrete values of
each of the eight systems. -/
theorem omitted_alpha_defaults_witness :
    ((⟨[0, 0, 0], 1, ⟨0, 0, 0, 255⟩, false, -1⟩ : TupleCore).a = roundSpec (-1) 1
      ∧ (⟨[0, 0, 0], 1, ⟨0, 0, 0, 255⟩, false, -1⟩ : TupleCore).rgba.a = 255)
  ∧ ((⟨[0, 0, 0], 1, ⟨0, 0, 0, 255⟩, false, -1⟩ : TupleCore).a = roundSpec (-1) 1
      ∧ (⟨[0, 0, 0], 1, ⟨0, 0, 0, 255⟩, false, -1⟩ : TupleCore).rgba.a = 255)
  ∧ ((⟨[0, 0, 0], 1, ⟨0, 0, 0, 255⟩, false, -1⟩ : TupleCore).a = roundSpec (-1) 1
      ∧ (⟨[0, 0, 0], 1, ⟨0, 0, 0, 255⟩, false, -1⟩ : TupleCore).rgba.a = 255)
  ∧ ((⟨[0, 0, 0], 1, ⟨255, 255, 255, 255⟩, false, -1⟩ : TupleCore).a = roundSpec (-1) 1
      ∧ (⟨[0, 0, 0], 1, ⟨255, 255, 255, 255⟩, false, -1⟩ : TupleCore).rgba.a = 255)
  ∧ ((⟨[0, 0, 0, 0], 1, ⟨255, 255, 255, 255⟩, false, -1⟩ : TupleCore).a = roundSpec (-1) 1
      ∧ (⟨[0, 0, 0, 0], 1, ⟨255, 255, 255, 255⟩, false, -1⟩ : TupleCore).rgba.a = 255)
  ∧ ((⟨[50, 0, 0], 1, ⟨0, 0, 0, 255⟩, false, -1⟩ : TupleCore).a = roundSpec (-1) 1
      ∧ (⟨[50, 0, 0], 1, ⟨0, 0, 0, 255⟩, false, -1⟩ : TupleCore).rgba.a = 255)
  ∧ ((⟨[50, 0, 0], 1, ⟨0, 0, 0, 255⟩, false, -1⟩ : TupleCore).a = roundSpec (-1) 1
      ∧ (⟨[50, 0, 0], 1, ⟨0, 0, 0, 255⟩, false, -1⟩ : TupleCore).rgba.a = 255)
  ∧ (⟨"#ff0000", ⟨255, 0, 0, 255⟩, false, true, false, false⟩ : HexVal).rgba.a = 255 :=
  ⟨(omitted_alpha_defaults O0).1 0 0 0 {}
      ⟨[0, 0, 0], 1, ⟨0, 0, 0, 255⟩, false, -1⟩ (by decide) (by decide),
    (omitted_alpha_defaults O0).2.1 0 0 0 {}
      ⟨[0, 0, 0], 1, ⟨0, 0, 0, 255⟩, false, -1⟩ (by decide) (by decide),
    (omitted_alpha_defaults O0).2.2.1 0 0 0 {}
      ⟨[0, 0, 0], 1, ⟨0, 0, 0, 255⟩, false, -1⟩ (by decide) (by decide),
    (omitted_alpha_defaults O0).2.2.2.1 0 0 0 {}
      ⟨[0, 0, 0], 1, ⟨255, 255, 255, 255⟩, false, -1⟩ (by decide) (by decide),
    (omitted_alpha_defaults O0).2.2.2.2.1 0 0 0 0 {}
      ⟨[0, 0, 0, 0], 1, ⟨255, 255, 255, 255⟩, false, -1⟩ (by decide) (by decide),
    (omitted_alpha_defaults O0).2.2.2.2.2.1 50 0 0 {}
      ⟨[50, 0, 0], 1, ⟨0, 0, 0, 255⟩, false, -1⟩ (by decide) (by decide),
    (omitted_alpha_defaults O0).2.2.2.2.2.2.1 50 0 0 {}
      ⟨[50, 0, 0], 1, ⟨0, 0, 0, 255⟩, false, -1⟩ (by decide) (by decide),
    (omitted_alpha_defaults O0).2.2.2.2.2.2.2 "ff0000" {}
      ⟨"#ff0000", ⟨255, 0, 0, 255⟩, false, true, false, false⟩ (by decide) (by decide)⟩

end Colorir


